import Mathlib

/-!
# CareOps automation engine — shallow embedding

This file embeds the automation/reminder engine of the CareOps backend
(`backend/src/services/automation.service.ts`, reached through the
integrations module) into Lean 4 and proves the specification's claims
about it.

Modelling conventions:
* JavaScript strings are Lean `String`s; the global-regex replacement
  `result.replace(new RegExp("\x7b\x7bkey\x7d\x7d", "g"), value)` is modelled by a
  left-to-right, non-overlapping replacement over the character list,
  which is exactly what the JS call does for keys free of regex
  metacharacters (all keys produced by the engine are plain identifiers).
* JavaScript values flowing through the loosely-typed event context are
  modelled by `Value` (string, number or null/undefined), with JS
  truthiness and string coercion made explicit.
* Timestamps are integers (milliseconds since the epoch); `date-fns`
  `addDays` adds a whole number of 24-hour days.
* Database reads are pure list filters over an explicit database value;
  database writes, channel calls and socket emissions are `Effect`s.
* Exceptions are modelled by a `Bool` flag paired with the effects that
  happened before the throw; `catchE` models a `try/catch` that swallows.
  The failure behaviour of the external world (email/SMS transport,
  alert persistence, rule loading) is an explicit `Env` oracle.
-/

/-- JS truthiness-carrying runtime value, as used by the untyped event
context object. -/
inductive Value where
  | str (s : String)
  | num (n : Int)
  | null
deriving DecidableEq, Repr

/-- JS truthiness: non-empty strings and non-zero numbers are truthy;
`null`/`undefined` are falsy. -/
def Value.truthy : Value → Bool
  | .str s => s != ""
  | .num n => n != 0
  | .null => false

/-- JS string coercion of a value (template-literal / replacement
coercion). -/
def Value.toStr : Value → String
  | .str s => s
  | .num n => toString n
  | .null => "null"

/-- The event context: a JS object used as a key → value map
(`Object.keys` iterates in insertion order; keys are unique). -/
abbrev Context := List (String × Value)

/-- `context[key] || defaultless` as an `Option`: `some` of the coerced
string when the field is present and truthy, `none` otherwise.  Models
the guards `if (context.email)` / `context.linkTo || null`. -/
def truthyGet (ctx : Context) (k : String) : Option String :=
  match ctx.lookup k with
  | some v => if v.truthy then some v.toStr else none
  | none => none

/-- One pass of JS `String.prototype.replace` with a global regex whose
pattern is the literal `pat`: scan left to right, replace each
non-overlapping occurrence of `pat` by `rep`, never re-scanning the
replacement text within the pass.  `fuel` bounds the recursion (it is
initialised to the length of the subject and only ever needs that
much). -/
def listReplace (pat rep : List Char) : Nat → List Char → List Char
  | 0, l => l
  | _ + 1, [] => []
  | fuel + 1, c :: cs =>
    if pat.isPrefixOf (c :: cs) then
      rep ++ listReplace pat rep fuel (List.drop pat.length (c :: cs))
    else
      c :: listReplace pat rep fuel cs

/-- `s.replace(new RegExp(pat, "g"), rep)` for a metacharacter-free
literal pattern. -/
def strReplaceAll (s pat rep : String) : String :=
  ⟨listReplace pat.toList rep.toList s.toList.length s.toList⟩

/-- `replaceVariables(template, context)` from the automation service:

```
let result = template;
Object.keys(context).forEach((key) => {
  const regex = new RegExp(`\x7b\x7b${key}\x7d\x7d`, 'g');
  result = result.replace(regex, context[key] || '');
});
return result;
```

One global-replace pass per context key, in key order, each pass
operating on the output of the previous one; a falsy value is replaced
by the empty string. -/
def replaceVariables (template : String) (ctx : Context) : String :=
  ctx.foldl
    (fun result kv =>
      strReplaceAll result ("\x7b\x7b" ++ kv.1 ++ "\x7d\x7d")
        (if kv.2.truthy then kv.2.toStr else ""))
    template

-- Basic lemmas about `listReplace`.

theorem listReplace_nil (pat rep : List Char) (fuel : Nat) :
    listReplace pat rep fuel [] = [] := by
  cases fuel <;> simp [listReplace]

/-- If the pattern does not occur in the subject, one replacement pass
leaves the subject unchanged (for any fuel). -/
theorem listReplace_of_no_occurrence (pat rep : List Char) :
    ∀ (fuel : Nat) (l : List Char), ¬ pat <:+: l →
      listReplace pat rep fuel l = l := by
  intro fuel
  induction fuel with
  | zero => intro l _; simp [listReplace]
  | succ n ih =>
    intro l h
    cases l with
    | nil => simp [listReplace]
    | cons c cs =>
      have hpre : pat.isPrefixOf (c :: cs) = false := by
        by_contra hcon
        have : pat.isPrefixOf (c :: cs) = true := by
          revert hcon; cases pat.isPrefixOf (c :: cs) <;> simp
        exact h (List.IsPrefix.isInfix (List.isPrefixOf_iff_prefix.mp this))
      have htail : ¬ pat <:+: cs := fun hc => h (hc.trans (List.suffix_cons c cs).isInfix)
      simp [listReplace, hpre, ih cs htail]

/-- A pass whose subject begins with the pattern replaces that head
occurrence and continues after it, never re-scanning the inserted
replacement. -/
theorem listReplace_head (pat rep post : List Char) (fuel : Nat) (hpat : pat ≠ []) :
    listReplace pat rep (fuel + 1) (pat ++ post) =
      rep ++ listReplace pat rep fuel post := by
  cases pat with
  | nil => exact absurd rfl hpat
  | cons p ps =>
    have hpre : (p :: ps).isPrefixOf ((p :: ps) ++ post) = true :=
      List.isPrefixOf_iff_prefix.mpr ⟨post, rfl⟩
    simp [listReplace, hpre]

/-- Replacing the pattern inside a subject equal to the pattern itself
yields exactly the replacement — substituted output is not re-scanned
within a pass, even when the replacement contains the pattern. -/
theorem listReplace_self (pat rep : List Char) (hpat : pat ≠ []) :
    listReplace pat rep pat.length pat = rep := by
  cases pat with
  | nil => exact absurd rfl hpat
  | cons p ps =>
    have h := listReplace_head (p :: ps) rep [] ps.length (by simp)
    simpa [listReplace_nil] using h

/-! ## Time -/

/-- Milliseconds in one hour. -/
def msPerHour : Int := 3600000

/-- Milliseconds in one day. -/
def msPerDay : Int := 86400000

/-- `date-fns` `addDays(t, n)` on an epoch-millisecond timestamp. -/
def addDays (t : Int) (n : Int) : Int := t + n * msPerDay

/-! ## Enumerations (Prisma schema enums used by the engine) -/

/-- `AutomationTrigger` enum values reachable from the engine and the
event-dispatch call sites. -/
inductive AutomationTrigger where
  | BOOKING_REMINDER
  | FORM_PENDING
  | INVENTORY_LOW
  | BOOKING_CREATED
  | CONTACT_CREATED
  | FORM_SUBMITTED
  | BOOKING_COMPLETED
deriving DecidableEq, Repr

/-- `AutomationAction` enum. -/
inductive AutomationAction where
  | SEND_EMAIL
  | SEND_SMS
  | CREATE_ALERT
deriving DecidableEq, Repr

/-- `BookingStatus` enum. -/
inductive BookingStatus where
  | PENDING
  | CONFIRMED
  | COMPLETED
  | CANCELLED
  | NO_SHOW
deriving DecidableEq, Repr

/-- `FormSubmissionStatus` enum. -/
inductive FormSubmissionStatus where
  | PENDING
  | COMPLETED
  | OVERDUE
deriving DecidableEq, Repr

/-! ## Entities -/

/-- The channel-specific fields the executor reads from an automation's
free-form `config` object.  `subject` and `priority` are optional
because the code applies `|| 'Notification'` / `|| 'MEDIUM'` defaults
to them. -/
structure AutomationConfig where
  subject : Option String := none
  body : String := ""
  message : String := ""
  alertType : String := ""
  priority : Option String := none
  title : String := ""
deriving DecidableEq, Repr

/-- A persisted automation rule. -/
structure Automation where
  id : String
  workspaceId : String
  trigger : AutomationTrigger
  action : AutomationAction
  isActive : Bool
  config : AutomationConfig
deriving DecidableEq, Repr

/-- The data of an alert row as created by the executor
(`prisma.alert.create`), before the database stamps `createdAt`. -/
structure AlertData where
  workspaceId : String
  type : String
  priority : String
  title : String
  message : String
  linkTo : Option String
deriving DecidableEq, Repr

/-- A persisted alert row. -/
structure Alert extends AlertData where
  createdAt : Int
deriving DecidableEq, Repr

/-- Contact fields the scanners read (relations flattened by the
`include` clauses). -/
structure ContactInfo where
  firstName : String
  lastName : Option String
  email : Value
  phone : Value
deriving DecidableEq, Repr

/-- A booking row with the relations the reminder scan includes. -/
structure Booking where
  id : String
  workspaceId : String
  startTime : Int
  status : BookingStatus
  contact : Option ContactInfo
  bookingTypeName : Option String
deriving DecidableEq, Repr

/-- A form-submission row with the relations the form scans include
(`booking.workspaceId` from the included booking; contact and form
fields flattened). -/
structure FormSubmission where
  id : String
  status : FormSubmissionStatus
  createdAt : Int
  dueDate : Option Int
  bookingWorkspaceId : Option String
  contactFirstName : String
  contactLastName : Option String
  contactEmail : Value
  contactPhone : Value
  formName : String
deriving DecidableEq, Repr

/-- An inventory-item row. -/
structure InventoryItem where
  id : String
  workspaceId : String
  name : String
  quantity : Int
  lowStockThreshold : Int
  isActive : Bool
deriving DecidableEq, Repr

/-- The database state the engine reads and writes. -/
structure EngineDB where
  automations : List Automation
  bookings : List Booking
  formSubmissions : List FormSubmission
  inventoryItems : List InventoryItem
  alerts : List Alert
deriving DecidableEq, Repr

/-! ## Effects and the external-world oracle -/

/-- Observable side effects of the engine: channel calls, successful
alert-row creations and real-time socket emissions. -/
inductive Effect where
  | emailCall (recipient subject body : String)
  | smsCall (recipient message : String)
  | alertCreate (d : AlertData)
  | socketEmit (workspaceId : String) (type message : String)
deriving DecidableEq, Repr

/-- Behaviour of the external world: whether each fallible operation
throws, whether the Socket.IO instance has been set, and the
locale-dependent date/time formatters used for reminder contexts. -/
structure Env where
  loadFails : Bool
  emailFails : String → String → String → Bool
  smsFails : String → String → Bool
  alertCreateFails : AlertData → Bool
  ioSet : Bool
  fmtDate : Int → String
  fmtTime : Int → String

/-- A computation that produced some effects and may have ended in a
pending (uncaught) exception. -/
abbrev Eff := List Effect × Bool

/-- `try { … } catch (e) { console.error(…) }`: the exception is
swallowed, the effects that happened before it remain. -/
def catchE (x : Eff) : Eff := (x.1, false)

/-! ## Rule Executor and Event Dispatcher
(`executeAutomation` / `triggerAutomation` in the automation service) -/

/-- `config.subject || 'Notification'`. -/
def subjectOf (cfg : AutomationConfig) : String :=
  match cfg.subject with
  | some s => if s == "" then "Notification" else s
  | none => "Notification"

/-- `config.priority || 'MEDIUM'`. -/
def priorityOf (cfg : AutomationConfig) : String :=
  match cfg.priority with
  | some p => if p == "" then "MEDIUM" else p
  | none => "MEDIUM"

/-- The body of `executeAutomation`'s `try` block: branch on the rule's
action, guard email/SMS on a truthy `context.email` / `context.phone`,
render the templates, perform the channel call or alert creation.  The
returned flag is `true` when the body throws (transport failure or
alert-persistence failure, per the `Env` oracle); effects that happened
before the throw are kept. -/
def executeBody (env : Env) (a : Automation) (ctx : Context) : Eff :=
  match a.action with
  | .SEND_EMAIL =>
    match truthyGet ctx "email" with
    | some rcpt =>
      let subj := subjectOf a.config
      let body := replaceVariables a.config.body ctx
      ([.emailCall rcpt subj body], env.emailFails rcpt subj body)
    | none => ([], false)
  | .SEND_SMS =>
    match truthyGet ctx "phone" with
    | some rcpt =>
      let msg := replaceVariables a.config.message ctx
      ([.smsCall rcpt msg], env.smsFails rcpt msg)
    | none => ([], false)
  | .CREATE_ALERT =>
    let d : AlertData :=
      { workspaceId := a.workspaceId
        type := a.config.alertType
        priority := priorityOf a.config
        title := replaceVariables a.config.title ctx
        message := replaceVariables a.config.message ctx
        linkTo := truthyGet ctx "linkTo" }
    if env.alertCreateFails d then ([], true)
    else
      (.alertCreate d ::
        (if env.ioSet then
          [.socketEmit a.workspaceId a.config.alertType
            (replaceVariables a.config.message ctx)]
        else []), false)

/-- `executeAutomation`: the body wrapped in its own `try/catch`, so it
never lets an exception escape. -/
def executeAutomation (env : Env) (a : Automation) (ctx : Context) : Eff :=
  catchE (executeBody env a ctx)

/-- The rule-store query of `triggerAutomation`:
`prisma.automation.findMany(\x7b where: \x7b workspaceId, trigger, isActive: true \x7d \x7d)`. -/
def matchingAutomations (autos : List Automation) (w : String)
    (t : AutomationTrigger) : List Automation :=
  autos.filter (fun a => a.workspaceId == w && a.trigger == t && a.isActive)

/-- The `for (const automation of automations)` loop: each iteration
runs the (self-catching) executor; an exception escaping an iteration
would abort the loop. -/
def runMatching (env : Env) (ctx : Context) : List Automation → Eff
  | [] => ([], false)
  | a :: rest =>
    let r := executeAutomation env a ctx
    if r.2 then r
    else
      let r' := runMatching env ctx rest
      (r.1 ++ r'.1, r'.2)

/-- `triggerAutomation(workspaceId, trigger, context)`: load the
matching enabled rules and execute each in order, the whole wrapped in
a `try/catch` that swallows any exception (including a rule-loading
failure). -/
def triggerAutomation (env : Env) (autos : List Automation) (w : String)
    (t : AutomationTrigger) (ctx : Context) : Eff :=
  catchE
    (if env.loadFails then ([], true)
     else runMatching env ctx (matchingAutomations autos w t))

/-- The executor loop never throws (each iteration catches), so the
dispatch effects are exactly the concatenation of each matching rule's
caught effects. -/
theorem runMatching_eq (env : Env) (ctx : Context) (l : List Automation) :
    runMatching env ctx l
      = ((l.map (fun a => (executeAutomation env a ctx).1)).flatten, false) := by
  induction l with
  | nil => rfl
  | cons a rest ih =>
    simp [runMatching, executeAutomation, catchE, ih]

/-- Dispatch characterization on the non-failing load path. -/
theorem triggerAutomation_eq (env : Env) (autos : List Automation) (w : String)
    (t : AutomationTrigger) (ctx : Context) (h : env.loadFails = false) :
    triggerAutomation env autos w t ctx
      = (((matchingAutomations autos w t).map
            (fun a => (executeAutomation env a ctx).1)).flatten, false) := by
  simp [triggerAutomation, h, runMatching_eq, catchE]

/-! ## Periodic scanners -/

/-- Alert rows created by a list of effects, stamped with the creation
time (what `prisma.alert.create` persists). -/
def alertsOfEffects (now : Int) (es : List Effect) : List Alert :=
  es.filterMap (fun e =>
    match e with
    | .alertCreate d => some { toAlertData := d, createdAt := now }
    | _ => none)

/-- Applying one effect to the database: only alert creations write
rows; channel calls and socket emissions leave the database alone. -/
def applyEffect (now : Int) (db : EngineDB) : Effect → EngineDB
  | .alertCreate d => { db with alerts := db.alerts ++ [{ toAlertData := d, createdAt := now }] }
  | _ => db

/-- Apply a list of effects in order. -/
def applyEffects (now : Int) (db : EngineDB) (es : List Effect) : EngineDB :=
  es.foldl (applyEffect now) db

/-- `` `${booking.contact?.firstName} ${booking.contact?.lastName || ''}`.trim() ``:
an absent contact interpolates as the string `"undefined"`. -/
def contactNameOf (c : Option ContactInfo) : String :=
  (((match c with | some ci => ci.firstName | none => "undefined"))
    ++ " "
    ++ (match c with
        | some ci => match ci.lastName with | some l => l | none => ""
        | none => "")).trim

/-- The event context built per qualifying booking by the reminder
scan. -/
def bookingCtx (env : Env) (b : Booking) : Context :=
  [ ("contactName", .str (contactNameOf b.contact))
  , ("email", match b.contact with | some c => c.email | none => .null)
  , ("phone", match b.contact with | some c => c.phone | none => .null)
  , ("bookingType", match b.bookingTypeName with | some n => .str n | none => .null)
  , ("bookingDate", .str (env.fmtDate b.startTime))
  , ("bookingTime", .str (env.fmtTime b.startTime)) ]

/-- The booking query of `checkBookingReminders`:
`startTime: \x7b gte: tomorrow, lte: addDays(tomorrow, 1) \x7d` with
`tomorrow = addDays(new Date(), 1)`, and `status in [PENDING, CONFIRMED]`. -/
def qualifyingBookings (now : Int) (bookings : List Booking) : List Booking :=
  bookings.filter (fun b =>
    decide (addDays now 1 ≤ b.startTime)
      && decide (b.startTime ≤ addDays (addDays now 1) 1)
      && (b.status == .PENDING || b.status == .CONFIRMED))

/-- `checkBookingReminders`: dispatch the booking-reminder trigger for
each qualifying booking. -/
def checkBookingReminders (env : Env) (now : Int) (db : EngineDB) : List Effect :=
  ((qualifyingBookings now db.bookings).map
    (fun b => (triggerAutomation env db.automations b.workspaceId
      .BOOKING_REMINDER (bookingCtx env b)).1)).flatten

/-- The event context built per qualifying pending submission. -/
def pendingFormCtx (s : FormSubmission) : Context :=
  [ ("contactName",
      .str ((s.contactFirstName ++ " "
        ++ (match s.contactLastName with | some l => l | none => "")).trim))
  , ("email", s.contactEmail)
  , ("phone", s.contactPhone)
  , ("formName", .str s.formName) ]

/-- `checkPendingForms`: submissions with `status = PENDING` and
`createdAt <= addDays(now, -1)`; only those with an associated booking
are dispatched (`if (submission.booking)`). -/
def checkPendingForms (env : Env) (now : Int) (db : EngineDB) : List Effect :=
  ((db.formSubmissions.filter (fun s =>
      s.status == .PENDING && decide (s.createdAt ≤ addDays now (-1)))).map
    (fun s =>
      match s.bookingWorkspaceId with
      | some w => (triggerAutomation env db.automations w .FORM_PENDING
          (pendingFormCtx s)).1
      | none => [])).flatten

/-- Whether a submission's `dueDate` has passed (`dueDate: \x7b lt: now \x7d`;
a null `dueDate` never matches). -/
def duePassed (now : Int) (s : FormSubmission) : Bool :=
  match s.dueDate with
  | some d => decide (d < now)
  | none => false

/-- The per-row update performed by `checkOverdueForms`: a `PENDING`
submission whose `dueDate` has passed becomes `OVERDUE`; every other
row is untouched. -/
def overdueTransition (now : Int) (s : FormSubmission) : FormSubmission :=
  if s.status == .PENDING && duePassed now s then { s with status := .OVERDUE }
  else s

/-- `checkOverdueForms`: select `status = PENDING ∧ dueDate < now` and
update each selected row's status to `OVERDUE`.  No automation trigger
is dispatched. -/
def checkOverdueForms (now : Int) (db : EngineDB) : EngineDB × List Effect :=
  ({ db with formSubmissions := db.formSubmissions.map (overdueTransition now) }, [])

/-- The event context built per qualifying low-stock item. -/
def invCtx (i : InventoryItem) : Context :=
  [ ("itemName", .str i.name)
  , ("quantity", .num i.quantity)
  , ("threshold", .num i.lowStockThreshold)
  , ("linkTo", .str ("/inventory/" ++ i.id)) ]

/-- The inventory query of `checkInventoryLevels`: active items with
`quantity <= lowStockThreshold`. -/
def lowStockItems (db : EngineDB) : List InventoryItem :=
  db.inventoryItems.filter (fun i => i.isActive && decide (i.quantity ≤ i.lowStockThreshold))

/-- JS `String.prototype.includes` / Prisma `contains`. -/
def strContains (hay needle : String) : Bool :=
  decide (needle.toList <:+: hay.toList)

/-- The deduplication query: an alert of type `"LOW_INVENTORY"` for the
item's workspace, created within the last 24 hours
(`createdAt: \x7b gte: addDays(new Date(), -1) \x7d`), whose message contains
the item's name. -/
def hasRecentLowInvAlert (alerts : List Alert) (now : Int) (i : InventoryItem) : Bool :=
  alerts.any (fun al =>
    al.workspaceId == i.workspaceId
      && al.type == "LOW_INVENTORY"
      && decide (addDays now (-1) ≤ al.createdAt)
      && strContains al.message i.name)

/-- The item loop of `checkInventoryLevels`, threading the alert table
(alerts persisted for one item are visible to the dedup query of the
next).  Also returns the list of items for which the trigger was
dispatched. -/
def invScanGo (env : Env) (autos : List Automation) (now : Int) :
    List InventoryItem → List Alert → List Effect × List InventoryItem
  | [], _ => ([], [])
  | i :: rest, alerts =>
    if hasRecentLowInvAlert alerts now i then invScanGo env autos now rest alerts
    else
      let es := (triggerAutomation env autos i.workspaceId .INVENTORY_LOW (invCtx i)).1
      let r := invScanGo env autos now rest (alerts ++ alertsOfEffects now es)
      (es ++ r.1, i :: r.2)

/-- `checkInventoryLevels`: effects of the scan over the low-stock
items, starting from the database's alert table. -/
def checkInventoryLevels (env : Env) (now : Int) (db : EngineDB) : List Effect :=
  (invScanGo env db.automations now (lowStockItems db) db.alerts).1

/-- The low-stock items for which one scan run dispatches the
inventory-low trigger. -/
def invScanDispatched (env : Env) (now : Int) (db : EngineDB) : List InventoryItem :=
  (invScanGo env db.automations now (lowStockItems db) db.alerts).2

/-- The 15-minute cron tick: booking reminders, pending forms, then
inventory levels, each seeing the rows persisted by its predecessors. -/
def runFifteenMinuteTick (env : Env) (now : Int) (db : EngineDB) :
    EngineDB × List Effect :=
  let e1 := checkBookingReminders env now db
  let db1 := applyEffects now db e1
  let e2 := checkPendingForms env now db1
  let db2 := applyEffects now db1 e2
  let e3 := checkInventoryLevels env now db2
  (applyEffects now db2 e3, e1 ++ e2 ++ e3)

/-- The hourly cron tick: the overdue-form scan alone. -/
def runHourlyTick (now : Int) (db : EngineDB) : EngineDB × List Effect :=
  checkOverdueForms now db

/-! ## Renderer lemmas -/

theorem pat_toList (k : String) :
    ("\x7b\x7b" ++ k ++ "\x7d\x7d").toList = '{' :: '{' :: (k.toList ++ ['}', '}']) := by
  show ("\x7b\x7b" ++ k ++ "\x7d\x7d").data = _
  simp [String.data_append, String.toList]

theorem pat_ne_nil (k : String) : ("\x7b\x7b" ++ k ++ "\x7d\x7d").toList ≠ [] := by
  rw [pat_toList]; simp

theorem strReplaceAll_self (p rep : String) (hp : p.toList ≠ []) :
    strReplaceAll p p rep = rep := by
  unfold strReplaceAll
  rw [listReplace_self _ _ hp]
  rfl

theorem strReplaceAll_of_no_occurrence (s p rep : String)
    (h : ¬ p.toList <:+: s.toList) :
    strReplaceAll s p rep = s := by
  unfold strReplaceAll
  rw [listReplace_of_no_occurrence _ _ _ _ h]
  rfl

/-- One-key render: the single replacement pass substitutes the key's
placeholder by the coerced value (empty string when falsy). -/
theorem replaceVariables_single (k : String) (v : Value) :
    replaceVariables ("\x7b\x7b" ++ k ++ "\x7d\x7d") [(k, v)]
      = (if v.truthy then v.toStr else "") := by
  show strReplaceAll ("\x7b\x7b" ++ k ++ "\x7d\x7d") ("\x7b\x7b" ++ k ++ "\x7d\x7d") _ = _
  exact strReplaceAll_self _ _ (pat_ne_nil k)

/-- If no context key's placeholder occurs in the template, rendering
leaves the template unchanged. -/
theorem replaceVariables_of_no_key_occurs (t : String) (ctx : Context)
    (h : ∀ kv ∈ ctx, ¬ ("\x7b\x7b" ++ kv.1 ++ "\x7d\x7d").toList <:+: t.toList) :
    replaceVariables t ctx = t := by
  induction ctx with
  | nil => rfl
  | cons kv rest ih =>
    show List.foldl _ (strReplaceAll t ("\x7b\x7b" ++ kv.1 ++ "\x7d\x7d") _) rest = t
    rw [strReplaceAll_of_no_occurrence _ _ _ (h kv (by simp))]
    exact ih (fun kv' h' => h kv' (List.mem_cons_of_mem kv h'))

/-! ## Claims about the Template Renderer -/

/-- C2 counterexample: the claim says a key absent from the context
resolves to the empty string, in particular
`render("\x7b\x7bmissing\x7d\x7d", \x7b\x7d) = ""`; the code iterates over the context's
keys only, so the placeholder is left as literal text, not `""`. -/
theorem c2_missing_key_counterexample :
    replaceVariables "{{missing}}" [] = "{{missing}}"
      ∧ replaceVariables "{{missing}}" [] ≠ "" := by
  exact ⟨rfl, by decide⟩

/-- C2 (amended): `render` replaces each occurrence of `\x7b\x7bkey\x7d\x7d` with
the string form of `context[key]` when the key is present in the
context (empty string when the value is falsy), but a key that appears
in the template and is absent from the context is left as the literal
placeholder text — when no context key's placeholder occurs in the
template the template is returned unchanged; in particular
`render("\x7b\x7bmissing\x7d\x7d", \x7b\x7d)` returns `"\x7b\x7bmissing\x7d\x7d"`, not `""`. -/
theorem c2_render_substitution (t : String) (ctx : Context) (k : String) (v : Value) :
    ((∀ kv ∈ ctx, ¬ ("\x7b\x7b" ++ kv.1 ++ "\x7d\x7d").toList <:+: t.toList) →
        replaceVariables t ctx = t)
      ∧ replaceVariables ("\x7b\x7b" ++ k ++ "\x7d\x7d") [(k, v)]
          = (if v.truthy then v.toStr else "")
      ∧ replaceVariables "Hi {{name}}, item {{item}} is low"
          [("name", .str "Sam"), ("item", .str "Gloves")]
          = "Hi Sam, item Gloves is low"
      ∧ replaceVariables "{{missing}}" [] = "{{missing}}" := by
  refine ⟨fun h => replaceVariables_of_no_key_occurs t ctx h,
    replaceVariables_single k v, by decide, rfl⟩

/-- C2 witness: the amended theorem applied at a concrete template and
context whose key does not occur in it. -/
theorem c2_render_substitution_witness :
    replaceVariables "{{missing}}" [("other", Value.str "x")] = "{{missing}}" :=
  (c2_render_substitution "{{missing}}" [("other", Value.str "x")] "k" Value.null).1
    (by decide)

/-- C3 counterexample: the claim says a context value containing
placeholder syntax is inserted verbatim and never re-expanded,
regardless of key order; but with `context = \x7ba: "\x7b\x7bb\x7d\x7d", b: "boom"\x7d`
the pass for the later key `b` re-scans the output substituted by the
pass for `a`, producing `"boom"` instead of the verbatim `"\x7b\x7bb\x7d\x7d"`. -/
theorem c3_reexpansion_counterexample :
    replaceVariables "{{a}}" [("a", Value.str "{{b}}"), ("b", Value.str "boom")] = "boom"
      ∧ replaceVariables "{{a}}" [("a", Value.str "{{b}}"), ("b", Value.str "boom")]
          ≠ "{{b}}" := by
  exact ⟨by decide, by decide⟩

/-- C3 (amended): within a single key's replacement pass, substituted
output is never re-scanned — a value containing placeholder syntax,
even its own key's placeholder, is inserted verbatim by its own pass,
so a one-key context can never re-expand; but the renderer performs one
pass per context key in key order, and a later key's pass does re-scan
the output of an earlier key's substitution, so a value containing
`\x7b\x7bx\x7d\x7d` where `x` is a later context key is re-expanded. -/
theorem c3_no_reexpansion_within_pass (k v : String) :
    replaceVariables ("\x7b\x7b" ++ k ++ "\x7d\x7d") [(k, Value.str v)] = v
      ∧ replaceVariables "{{a}}"
          [("a", Value.str "{{b}}"), ("b", Value.str "boom")] = "boom" := by
  constructor
  · rw [replaceVariables_single]
    by_cases hv : v = ""
    · simp [hv, Value.truthy]
    · simp [Value.truthy, hv, Value.toStr]
  · decide

/-- C10: a context key whose value is falsy (the number 0, the empty
string, or null/undefined) is substituted by the empty string, not by
its string form; in particular `\x7b\x7bquantity\x7d\x7d` with `quantity = 0`
renders as `""`, not `"0"`. -/
theorem c10_falsy_renders_empty (k : String) (v : Value) (h : v.truthy = false) :
    replaceVariables ("\x7b\x7b" ++ k ++ "\x7d\x7d") [(k, v)] = ""
      ∧ replaceVariables "{{quantity}}" [("quantity", Value.num 0)] = "" := by
  refine ⟨?_, by decide⟩
  rw [replaceVariables_single, h]
  simp

/-- C10 witness: the theorem applied at the zero-quantity value. -/
theorem c10_falsy_renders_empty_witness :
    replaceVariables ("\x7b\x7b" ++ "quantity" ++ "\x7d\x7d") [("quantity", Value.num 0)] = "" :=
  (c10_falsy_renders_empty "quantity" (Value.num 0) (by decide)).1

/-! ## Claims about the Event Dispatcher and Rule Executor -/

/-- A piece's effects embed into the concatenated whole. -/
theorem sublist_flatten_of_mem {α β : Type} (f : α → List β) {a : α} {l : List α}
    (h : a ∈ l) : (f a).Sublist ((l.map f).flatten) := by
  induction l with
  | nil => cases h
  | cons b rest ih =>
    rcases List.mem_cons.mp h with rfl | h'
    · simp only [List.map_cons, List.flatten_cons]
      exact List.sublist_append_left (f a) ((rest.map f).flatten)
    · simpa using ((ih h').trans (List.sublist_append_right _ _))

/-- An environment in which nothing fails. -/
def envNoFail : Env :=
  { loadFails := false
    emailFails := fun _ _ _ => false
    smsFails := fun _ _ => false
    alertCreateFails := fun _ => false
    ioSet := false
    fmtDate := fun _ => "date"
    fmtTime := fun _ => "time" }

/-- An environment in which every email transport call throws. -/
def envEmailDown : Env :=
  { envNoFail with emailFails := fun _ _ _ => true }

/-- A send-email rule on the inventory-low trigger. -/
def emailRule : Automation :=
  { id := "r1", workspaceId := "W", trigger := .INVENTORY_LOW,
    action := .SEND_EMAIL, isActive := true,
    config := { body := "b" } }

/-- A create-alert rule on the inventory-low trigger. -/
def alertRule : Automation :=
  { id := "r2", workspaceId := "W", trigger := .INVENTORY_LOW,
    action := .CREATE_ALERT, isActive := true,
    config := { alertType := "LOW_INVENTORY", title := "t", message := "m" } }

/-- A context carrying an email address. -/
def ctxEmail : Context := [("email", .str "a@b.c")]

/-- C1: `dispatch(workspaceId, trigger, context)` selects exactly the
automations of that workspace with that trigger and `isActive = true`,
and (when rule loading succeeds) invokes the executor on exactly that
list — so a rule of a different workspace, of a different trigger, or
with the enabled flag off is never executed. -/
theorem c1_dispatch_selects_exactly_matching (env : Env) (autos : List Automation)
    (w : String) (t : AutomationTrigger) (ctx : Context) (a : Automation) :
    (a ∈ matchingAutomations autos w t
        ↔ a ∈ autos ∧ a.workspaceId = w ∧ a.trigger = t ∧ a.isActive = true)
      ∧ (env.loadFails = false →
          triggerAutomation env autos w t ctx
            = (((matchingAutomations autos w t).map
                (fun a => (executeAutomation env a ctx).1)).flatten, false)) := by
  constructor
  · simp [matchingAutomations, List.mem_filter, and_assoc]
  · exact triggerAutomation_eq env autos w t ctx

/-- C1 witness: a disabled rule is not selected, and the dispatch
equation holds at a concrete input. -/
theorem c1_dispatch_selects_exactly_matching_witness :
    { emailRule with isActive := false }
        ∉ matchingAutomations [{ emailRule with isActive := false }] "W" .INVENTORY_LOW
      ∧ triggerAutomation envNoFail [] "W" .INVENTORY_LOW [] = ([], false) := by
  constructor
  · intro hmem
    have h := (c1_dispatch_selects_exactly_matching envNoFail
      [{ emailRule with isActive := false }] "W" .INVENTORY_LOW []
      { emailRule with isActive := false }).1.mp hmem
    simp at h
  · have h := (c1_dispatch_selects_exactly_matching envNoFail [] "W"
      .INVENTORY_LOW [] emailRule).2 rfl
    simpa using h

/-- C5: no exception from rule loading or rule execution ever escapes
`dispatch`; when loading succeeds, every matching rule's caught effects
appear in the dispatch output even when other rules throw — in
particular, with an email rule whose transport throws followed by an
alert rule, the alert row is still created. -/
theorem c5_per_rule_failure_isolation (env : Env) (autos : List Automation)
    (w : String) (t : AutomationTrigger) (ctx : Context) (a : Automation) :
    (triggerAutomation env autos w t ctx).2 = false
      ∧ (env.loadFails = false → a ∈ matchingAutomations autos w t →
          (executeAutomation env a ctx).1.Sublist (triggerAutomation env autos w t ctx).1)
      ∧ Effect.alertCreate
            { workspaceId := "W", type := "LOW_INVENTORY", priority := "MEDIUM",
              title := "t", message := "m", linkTo := none }
          ∈ (triggerAutomation envEmailDown [emailRule, alertRule] "W"
              .INVENTORY_LOW ctxEmail).1 := by
  refine ⟨rfl, fun h hm => ?_, by decide⟩
  rw [triggerAutomation_eq env autos w t ctx h]
  simpa using sublist_flatten_of_mem (fun a => (executeAutomation env a ctx).1) hm

/-- C5 witness: at a concrete two-rule dispatch whose first rule's
email transport throws, the dispatch reports no exception and the
second rule's effects are still present. -/
theorem c5_per_rule_failure_isolation_witness :
    (triggerAutomation envEmailDown [emailRule, alertRule] "W"
        .INVENTORY_LOW ctxEmail).2 = false
      ∧ (executeAutomation envEmailDown alertRule ctxEmail).1.Sublist
          (triggerAutomation envEmailDown [emailRule, alertRule] "W"
            .INVENTORY_LOW ctxEmail).1 := by
  have h := c5_per_rule_failure_isolation envEmailDown [emailRule, alertRule] "W"
    .INVENTORY_LOW ctxEmail alertRule
  exact ⟨h.1, h.2.1 rfl (by decide)⟩

/-- C6: a send-email rule executed against a context whose `email`
field is absent or the empty string performs no channel call and does
not throw; likewise a send-SMS rule against a context whose `phone`
field is absent or empty. -/
theorem c6_skip_when_no_recipient (env : Env) (a : Automation) (ctx : Context) :
    (a.action = .SEND_EMAIL →
        (ctx.lookup "email" = none ∨ ctx.lookup "email" = some (Value.str "")) →
        executeBody env a ctx = ([], false))
      ∧ (a.action = .SEND_SMS →
          (ctx.lookup "phone" = none ∨ ctx.lookup "phone" = some (Value.str "")) →
          executeBody env a ctx = ([], false)) := by
  constructor
  · intro ha h
    have htg : truthyGet ctx "email" = none := by
      rcases h with h | h <;> simp [truthyGet, h, Value.truthy]
    simp [executeBody, ha, htg]
  · intro ha h
    have htg : truthyGet ctx "phone" = none := by
      rcases h with h | h <;> simp [truthyGet, h, Value.truthy]
    simp [executeBody, ha, htg]

/-- C6 witness: the email rule runs against the empty context and an
empty-email context; nothing happens either way. -/
theorem c6_skip_when_no_recipient_witness :
    executeBody envNoFail emailRule [] = ([], false)
      ∧ executeBody envNoFail emailRule [("email", Value.str "")] = ([], false) :=
  ⟨(c6_skip_when_no_recipient envNoFail emailRule []).1 rfl (Or.inl rfl),
   (c6_skip_when_no_recipient envNoFail emailRule [("email", Value.str "")]).1 rfl
     (Or.inr (by decide))⟩

/-- A send-email rule whose configured subject contains a placeholder. -/
def subjRule : Automation :=
  { id := "r3", workspaceId := "W", trigger := .BOOKING_CREATED,
    action := .SEND_EMAIL, isActive := true,
    config := { subject := some "Hi {{name}}", body := "B" } }

/-- A context carrying a name and an email address. -/
def ctxName : Context := [("name", .str "Sam"), ("email", .str "a@b.c")]

/-- C7 counterexample: the claim says the subject is rendered through
the Template Renderer; but the code passes `config.subject` verbatim
(`subject: config.subject || 'Notification'`), so the channel receives
`"Hi \x7b\x7bname\x7d\x7d"` where the rendered subject would be `"Hi Sam"`. -/
theorem c7_subject_not_rendered_counterexample :
    executeBody envNoFail subjRule ctxName
        = ([Effect.emailCall "a@b.c" "Hi {{name}}" "B"], false)
      ∧ replaceVariables "Hi {{name}}" ctxName = "Hi Sam"
      ∧ ("Hi {{name}}" : String) ≠ "Hi Sam" := by
  exact ⟨by decide, by decide, by decide⟩

/-- C7 (amended): for a send-email rule executed with a truthy
`context.email`, the email channel is called exactly once, with the
subject equal to `configuration.subject` used verbatim — not rendered
through the Template Renderer — defaulting to `"Notification"` when the
subject is absent or empty, and with the body equal to
`configuration.body` rendered through the Template Renderer with the
context. -/
theorem c7_email_payload (env : Env) (a : Automation) (ctx : Context) (rcpt : String)
    (ha : a.action = .SEND_EMAIL) (h : truthyGet ctx "email" = some rcpt) :
    executeBody env a ctx
        = ([Effect.emailCall rcpt (subjectOf a.config)
              (replaceVariables a.config.body ctx)],
           env.emailFails rcpt (subjectOf a.config)
             (replaceVariables a.config.body ctx))
      ∧ (a.config.subject = none → subjectOf a.config = "Notification") := by
  constructor
  · simp [executeBody, ha, h]
  · intro hs; simp [subjectOf, hs]

/-- C7 witness: the amended theorem applied at the concrete rule and
context of the counterexample. -/
theorem c7_email_payload_witness :
    executeBody envNoFail subjRule ctxName
      = ([Effect.emailCall "a@b.c" (subjectOf subjRule.config)
            (replaceVariables subjRule.config.body ctxName)], false) := by
  have h := (c7_email_payload envNoFail subjRule ctxName "a@b.c" rfl (by decide)).1
  simpa using h

/-! ## Claims about the Booking Reminder Scan -/

/-- Midnight truncation of an epoch-millisecond timestamp (used only to
state the spec's version of the reminder window). -/
def startOfDay (t : Int) : Int := t - t % msPerDay

/-- Modelled from the spec: the reminder window the spec states
"precisely" — `[tomorrow_start, tomorrow_start + 1 day)` with
`tomorrow_start = startOfDay(now) + 1 day` — combined with the status
filter, for comparison against the engine's query. -/
def specReminderSet (now : Int) (bookings : List Booking) : List Booking :=
  bookings.filter (fun b =>
    decide (startOfDay now + msPerDay ≤ b.startTime)
      && decide (b.startTime < startOfDay now + 2 * msPerDay)
      && (b.status == .PENDING || b.status == .CONFIRMED))

/-- A pending booking at a given start time. -/
def reminderProbe (t : Int) : Booking :=
  { id := "b", workspaceId := "W", startTime := t, status := .PENDING,
    contact := none, bookingTypeName := none }

/-- C4 counterexample: at `now` = noon of day 0 (43200000 ms), a
booking at 06:00 of day 1 (108000000 ms = now + 18h) lies inside the
spec's `[startOfDay(now)+1d, startOfDay(now)+2d)` window but outside
the code's `[now+24h, now+48h]` query, so the claimed qualifying set
differs from the code's. -/
theorem c4_window_counterexample :
    specReminderSet 43200000 [reminderProbe 108000000] = [reminderProbe 108000000]
      ∧ qualifyingBookings 43200000 [reminderProbe 108000000] = []
      ∧ specReminderSet 43200000 [reminderProbe 108000000]
          ≠ qualifyingBookings 43200000 [reminderProbe 108000000] := by
  exact ⟨by decide, by decide, by decide⟩

/-- C4 (amended): the reminder scan's qualifying set is exactly the
bookings with status PENDING or CONFIRMED whose `startTime` lies in
the closed interval `[now + 24h, now + 48h]` measured from the scan
instant (no start-of-day truncation; both endpoints inclusive, the
query being `gte`/`lte`); in particular a booking at `now + 30h` is
included while bookings at `now + 3h` or `now + 50h` are excluded. -/
theorem c4_reminder_window (now : Int) (bookings : List Booking) (b : Booking) :
    (b ∈ qualifyingBookings now bookings
        ↔ b ∈ bookings ∧ (b.status = .PENDING ∨ b.status = .CONFIRMED)
            ∧ now + msPerDay ≤ b.startTime ∧ b.startTime ≤ now + 2 * msPerDay)
      ∧ reminderProbe (now + 30 * msPerHour)
          ∈ qualifyingBookings now [reminderProbe (now + 30 * msPerHour)]
      ∧ reminderProbe (now + 3 * msPerHour)
          ∉ qualifyingBookings now [reminderProbe (now + 3 * msPerHour)]
      ∧ reminderProbe (now + 50 * msPerHour)
          ∉ qualifyingBookings now [reminderProbe (now + 50 * msPerHour)] := by
  refine ⟨?_, ?_, ?_, ?_⟩
  · simp only [qualifyingBookings, List.mem_filter, Bool.and_eq_true,
      decide_eq_true_eq, Bool.or_eq_true, beq_iff_eq, addDays, msPerDay]
    constructor
    · rintro ⟨hm, ⟨h1, h2⟩, h3⟩
      exact ⟨hm, h3, by omega, by omega⟩
    · rintro ⟨hm, h3, h1, h2⟩
      exact ⟨hm, ⟨by omega, by omega⟩, h3⟩
  · simp [qualifyingBookings, reminderProbe, addDays, msPerDay, msPerHour]
    omega
  · simp [qualifyingBookings, reminderProbe, addDays, msPerDay, msPerHour]
  · simp [qualifyingBookings, reminderProbe, addDays, msPerDay, msPerHour]
    omega

/-! ## Claims about the Overdue Form Scan -/

theorem applyEffect_formSubmissions (now : Int) (db : EngineDB) (e : Effect) :
    (applyEffect now db e).formSubmissions = db.formSubmissions := by
  cases e <;> rfl

theorem applyEffects_formSubmissions (now : Int) (es : List Effect) :
    ∀ db : EngineDB, (applyEffects now db es).formSubmissions = db.formSubmissions := by
  induction es with
  | nil => intro db; rfl
  | cons e rest ih =>
    intro db
    show (applyEffects now (applyEffect now db e) rest).formSubmissions = _
    rw [ih, applyEffect_formSubmissions]

/-- An empty database. -/
def dbEmpty : EngineDB :=
  { automations := [], bookings := [], formSubmissions := [],
    inventoryItems := [], alerts := [] }

/-- A pending submission whose due date has passed at time `msPerDay`. -/
def overdueProbe : FormSubmission :=
  { id := "s1", status := .PENDING, createdAt := 0, dueDate := some 0,
    bookingWorkspaceId := none, contactFirstName := "A", contactLastName := none,
    contactEmail := .null, contactPhone := .null, formName := "F" }

/-- C8: one overdue-scan run maps each stored submission through
`overdueTransition`; a `PENDING` submission with passed `dueDate`
becomes `OVERDUE`, any other submission is untouched, and an `OVERDUE`
submission is never re-transitioned at any later run, so a second run
changes nothing for it; the scan dispatches no automation trigger (its
effect list is empty), and the 15-minute tick — the only other engine
operation — never writes `formSubmissions` at all. -/
theorem c8_overdue_one_way (env : Env) (now now2 : Int) (db : EngineDB)
    (s : FormSubmission) :
    ((checkOverdueForms now db).1.formSubmissions
        = db.formSubmissions.map (overdueTransition now))
      ∧ (s.status = .PENDING → duePassed now s = true →
          overdueTransition now s = { s with status := .OVERDUE })
      ∧ (¬(s.status = .PENDING ∧ duePassed now s = true) →
          overdueTransition now s = s)
      ∧ (s.status = .OVERDUE → overdueTransition now2 s = s)
      ∧ (checkOverdueForms now db).2 = []
      ∧ (runFifteenMinuteTick env now db).1.formSubmissions = db.formSubmissions := by
  refine ⟨rfl, ?_, ?_, ?_, rfl, ?_⟩
  · intro h1 h2
    simp [overdueTransition, h1, h2]
  · intro h
    unfold overdueTransition
    rw [if_neg]
    intro hb
    simp only [Bool.and_eq_true, beq_iff_eq] at hb
    exact h hb
  · intro h
    simp [overdueTransition, h]
  · show (applyEffects now (applyEffects now (applyEffects now db _) _) _).formSubmissions = _
    rw [applyEffects_formSubmissions, applyEffects_formSubmissions,
      applyEffects_formSubmissions]

/-- C8 witness: the theorem applied to a concrete pending, past-due
submission: one run flips it to OVERDUE, a later run leaves the flipped
row unchanged, and the scan's effect list is empty. -/
theorem c8_overdue_one_way_witness :
    overdueTransition msPerDay overdueProbe = { overdueProbe with status := .OVERDUE }
      ∧ overdueTransition (2 * msPerDay) { overdueProbe with status := .OVERDUE }
          = { overdueProbe with status := .OVERDUE }
      ∧ (checkOverdueForms msPerDay dbEmpty).2 = [] := by
  refine ⟨?_, ?_, ?_⟩
  · exact (c8_overdue_one_way envNoFail msPerDay 0 dbEmpty overdueProbe).2.1
      rfl (by decide)
  · exact (c8_overdue_one_way envNoFail msPerDay (2 * msPerDay) dbEmpty
      { overdueProbe with status := .OVERDUE }).2.2.2.1 rfl
  · exact (c8_overdue_one_way envNoFail msPerDay 0 dbEmpty overdueProbe).2.2.2.2.1

/-! ## Claims about the Low Inventory Scan -/

/-- The dedup query is monotone in the alert table: no match in an
extended table means no match in the original table. -/
theorem hasRecentLowInvAlert_append_false (alerts more : List Alert) (now : Int)
    (i : InventoryItem)
    (h : hasRecentLowInvAlert (alerts ++ more) now i = false) :
    hasRecentLowInvAlert alerts now i = false := by
  unfold hasRecentLowInvAlert at *
  rw [List.any_append] at h
  rcases Bool.or_eq_false_iff.mp h with ⟨h1, _⟩
  exact h1

/-- An item dispatched by the scan loop had no recent matching alert in
the alert table the loop started from. -/
theorem invScanGo_dispatched_not_recent (env : Env) (autos : List Automation)
    (now : Int) :
    ∀ (items : List InventoryItem) (alerts : List Alert) (i : InventoryItem),
      i ∈ (invScanGo env autos now items alerts).2 →
      hasRecentLowInvAlert alerts now i = false := by
  intro items
  induction items with
  | nil => intro alerts i h; simp [invScanGo] at h
  | cons j rest ih =>
    intro alerts i h
    by_cases hj : hasRecentLowInvAlert alerts now j = true
    · rw [invScanGo, if_pos hj] at h
      exact ih alerts i h
    · have hjf : hasRecentLowInvAlert alerts now j = false :=
        Bool.not_eq_true _ ▸ Bool.eq_false_iff.mpr (fun hc => hj hc)
      rw [invScanGo, if_neg (by simp [hjf])] at h
      rcases List.mem_cons.mp h with rfl | h'
      · exact hjf
      · exact hasRecentLowInvAlert_append_false _ _ _ _ (ih _ i h')

/-- A dispatched item comes from the scanned item list. -/
theorem invScanGo_dispatched_subset (env : Env) (autos : List Automation)
    (now : Int) :
    ∀ (items : List InventoryItem) (alerts : List Alert) (i : InventoryItem),
      i ∈ (invScanGo env autos now items alerts).2 → i ∈ items := by
  intro items
  induction items with
  | nil => intro alerts i h; simp [invScanGo] at h
  | cons j rest ih =>
    intro alerts i h
    by_cases hj : hasRecentLowInvAlert alerts now j = true
    · rw [invScanGo, if_pos hj] at h
      exact List.mem_cons_of_mem j (ih alerts i h)
    · rw [invScanGo, if_neg hj] at h
      rcases List.mem_cons.mp h with rfl | h'
      · exact List.mem_cons_self i rest
      · exact List.mem_cons_of_mem j (ih _ i h')

/-- The low-stock item of the spec's end-to-end scenario. -/
def glovesItem : InventoryItem :=
  { id := "i1", workspaceId := "W", name := "Gloves", quantity := 3,
    lowStockThreshold := 10, isActive := true }

/-- A create-alert rule on the inventory-low trigger, with the spec's
end-to-end scenario configuration. -/
def invAlertRule : Automation :=
  { id := "r4", workspaceId := "W", trigger := .INVENTORY_LOW,
    action := .CREATE_ALERT, isActive := true,
    config := { alertType := "LOW_INVENTORY", title := "{{itemName}} low",
                message := "Only {{quantity}} left (threshold {{threshold}})" } }

/-- A one-rule, one-item inventory database with a given prior alert
table. -/
def invDb (alerts : List Alert) : EngineDB :=
  { automations := [invAlertRule], bookings := [], formSubmissions := [],
    inventoryItems := [glovesItem], alerts := alerts }

/-- A prior low-inventory alert whose message mentions "Gloves",
created at the given time. -/
def priorGlovesAlert (t : Int) : Alert :=
  { workspaceId := "W", type := "LOW_INVENTORY", priority := "MEDIUM",
    title := "Gloves low", message := "Gloves low stock", linkTo := none,
    createdAt := t }

/-- C9: the low-inventory scan dispatches the inventory-low trigger for
an item only if the item is in the low-stock set and no LOW_INVENTORY
alert mentioning the item's name was created in its workspace within
the last 24 hours; concretely, at `now` = 25h, with a matching prior
alert created 2 hours earlier a run produces no effect for the item,
while with the most recent matching alert 25 hours old a run produces
exactly one new alert row. -/
theorem c9_low_inventory_dedup (env : Env) (now : Int) (db : EngineDB)
    (i : InventoryItem) :
    (i ∈ invScanDispatched env now db →
        i ∈ lowStockItems db ∧ hasRecentLowInvAlert db.alerts now i = false)
      ∧ checkInventoryLevels envNoFail (25 * msPerHour)
          (invDb [priorGlovesAlert (23 * msPerHour)]) = []
      ∧ checkInventoryLevels envNoFail (25 * msPerHour)
          (invDb [priorGlovesAlert 0])
          = [Effect.alertCreate
              { workspaceId := "W", type := "LOW_INVENTORY", priority := "MEDIUM",
                title := "Gloves low",
                message := "Only 3 left (threshold 10)", linkTo := some "/inventory/i1" }] := by
  refine ⟨fun h => ⟨?_, ?_⟩, by decide, by decide⟩
  · exact invScanGo_dispatched_subset env db.automations now _ _ i h
  · exact invScanGo_dispatched_not_recent env db.automations now _ _ i h

/-- C9 witness: in the 25-hour-old-alert scenario the item is
dispatched, and the theorem yields that no recent matching alert
existed at scan start. -/
theorem c9_low_inventory_dedup_witness :
    hasRecentLowInvAlert (invDb [priorGlovesAlert 0]).alerts (25 * msPerHour)
      glovesItem = false :=
  ((c9_low_inventory_dedup envNoFail (25 * msPerHour)
    (invDb [priorGlovesAlert 0]) glovesItem).1 (by decide)).2

/-- C4 witness: the amended window theorem applied at a concrete scan
instant. -/
theorem c4_reminder_window_witness :
    reminderProbe (0 + 30 * msPerHour)
      ∈ qualifyingBookings 0 [reminderProbe (0 + 30 * msPerHour)] :=
  (c4_reminder_window 0 [] (reminderProbe 0)).2.1
